import Mathlib

/-!
Verification of the enum-coercion layer (`databento/common/enums.py`) and the
HTTP API base (`databento/historical/http.py`) of the databento-python client.

Python strings (and byte strings) are embedded as lists of natural-number code
points.  All relevant data is ASCII, so Python's per-character `str.lower()`,
`str.upper()` and single-character `str.replace` are embedded as pointwise maps
over the code points.
-/

/-- A Python string (or bytes object), as its list of code points. -/
abbrev PyStr := List Nat

/-- Code points of a Lean string literal, used to transcribe the Python
string constants of the source. -/
def pystr (s : String) : PyStr := s.data.map Char.toNat

/-- Embedding of Python `str.lower` on one ASCII code point. -/
def lowerCode (n : Nat) : Nat := if 65 ≤ n ∧ n ≤ 90 then n + 32 else n

/-- Embedding of Python `str.upper` on one ASCII code point. -/
def upperCode (n : Nat) : Nat := if 97 ≤ n ∧ n ≤ 122 then n - 32 else n

/-- Embedding of Python `str.replace(a, b)` for single-character `a`, `b`,
on one code point. -/
def substCode (a b n : Nat) : Nat := if n = a then b else n

/-- Embedding of Python `str.lower`. -/
def pyLower (s : PyStr) : PyStr := s.map lowerCode

/-- Embedding of Python `str.upper`. -/
def pyUpper (s : PyStr) : PyStr := s.map upperCode

/-- Embedding of Python `str.replace(a, b)` for single-character patterns. -/
def pySubst (a b : Nat) (s : PyStr) : PyStr := s.map (substCode a b)

/-- Embedding of `str(value).replace(".", "_").replace("-", "_").upper()`
from `coerced_new` (enums.py line 65): the secondary, symbolic-name lookup
key.  Code point 46 is `.`, 45 is `-`, 95 is `_`. -/
def normName (s : PyStr) : PyStr := pyUpper (pySubst 45 95 (pySubst 46 95 s))

/-- The code-point map underlying `normName`. -/
def normCode (n : Nat) : Nat := upperCode (substCode 45 95 (substCode 46 95 n))

/-- One member of a coercible string-valued enumeration: its symbolic
(attribute) name, its canonical value string, and — for the deprecated
`SType` members — the tuple of replacement value strings written after the
value in the class body (`args` in `SType.__new__`; empty for all members
of every other vocabulary and for non-deprecated `SType` members). -/
structure VocabMember where
  name : PyStr
  value : PyStr
  args : List PyStr
deriving DecidableEq

/-- A coercible string-valued enumeration: its members in class-body order. -/
structure Vocab where
  members : List VocabMember
deriving DecidableEq

/-- Embedding of `Enum.__new__`'s value lookup (`_value2member_map_`): find
the member whose value equals the coerced string. -/
def lookupValue (v : Vocab) (s : PyStr) : Option VocabMember :=
  v.members.find? (fun m => m.value == s)

/-- Embedding of `enum._member_map_.get(name_to_try)` (enums.py line 66):
find the member whose symbolic name equals the given string. -/
def lookupName (v : Vocab) (s : PyStr) : Option VocabMember :=
  v.members.find? (fun m => m.name == s)

/-- Result of a call to a coercible string-valued enum's `__new__`.
`typeError` is the `TypeError` raised for `None` (enums.py lines 58-61);
`valueError` is the `ValueError` raised when both lookups fail (enums.py
lines 71-74) and records the data interpolated into its message: the
offending value and the tuple of all legal values
(`tuple(value for value in enum._value2member_map_)`). -/
inductive CoerceResult
  | ok (member : VocabMember)
  | typeError
  | valueError (badValue : PyStr) (legalValues : List PyStr)
deriving DecidableEq

/-- Embedding of `coerced_new` (enums.py lines 57-74) for a string-valued
vocabulary: the input is `none` for Python `None`, otherwise `some` of the
`str()` image of the raw value.  `coerce_fn` for string enums is
`str(value).lower()`; on `ValueError` from the value lookup, the
symbolic-name table is tried with the dot/dash-to-underscore uppercased
form of the input. -/
def coerced_new (v : Vocab) (input : Option PyStr) : CoerceResult :=
  match input with
  | none => CoerceResult.typeError
  | some raw =>
    match lookupValue v (pyLower raw) with
    | some m => CoerceResult.ok m
    | none =>
      match lookupName v (normName raw) with
      | some m => CoerceResult.ok m
      | none => CoerceResult.valueError raw (v.members.map (fun m => m.value))

/-- The `HistoricalGateway` vocabulary (enums.py lines 141-146). -/
def HistoricalGateway : Vocab :=
  ⟨[⟨pystr "BO1", pystr "https://hist.databento.com", []⟩]⟩

/-- The `LiveGateway` vocabulary (enums.py lines 149-156). -/
def LiveGateway : Vocab :=
  ⟨[⟨pystr "ORIGIN", pystr "origin", []⟩,
    ⟨pystr "NY4", pystr "ny4", []⟩,
    ⟨pystr "DC3", pystr "dc3", []⟩]⟩

/-- The `FeedMode` vocabulary (enums.py lines 159-166). -/
def FeedMode : Vocab :=
  ⟨[⟨pystr "HISTORICAL", pystr "historical", []⟩,
    ⟨pystr "HISTORICAL_STREAMING", pystr "historical-streaming", []⟩,
    ⟨pystr "LIVE", pystr "live", []⟩]⟩

/-- The `Dataset` vocabulary (enums.py lines 169-175). -/
def Dataset : Vocab :=
  ⟨[⟨pystr "GLBX_MDP3", pystr "GLBX.MDP3", []⟩,
    ⟨pystr "XNAS_ITCH", pystr "XNAS.ITCH", []⟩]⟩

/-- The `Schema` vocabulary (enums.py lines 178-197). -/
def Schema : Vocab :=
  ⟨[⟨pystr "MBO", pystr "mbo", []⟩,
    ⟨pystr "MBP_1", pystr "mbp-1", []⟩,
    ⟨pystr "MBP_10", pystr "mbp-10", []⟩,
    ⟨pystr "TBBO", pystr "tbbo", []⟩,
    ⟨pystr "TRADES", pystr "trades", []⟩,
    ⟨pystr "OHLCV_1S", pystr "ohlcv-1s", []⟩,
    ⟨pystr "OHLCV_1M", pystr "ohlcv-1m", []⟩,
    ⟨pystr "OHLCV_1H", pystr "ohlcv-1h", []⟩,
    ⟨pystr "OHLCV_1D", pystr "ohlcv-1d", []⟩,
    ⟨pystr "DEFINITION", pystr "definition", []⟩,
    ⟨pystr "IMBALANCE", pystr "imbalance", []⟩,
    ⟨pystr "STATISTICS", pystr "statistics", []⟩,
    ⟨pystr "STATUS", pystr "status", []⟩,
    ⟨pystr "GATEWAY_ERROR", pystr "gateway_error", []⟩,
    ⟨pystr "SYMBOL_MAPPING", pystr "symbol_mapping", []⟩]⟩

/-- The `Encoding` vocabulary (enums.py lines 200-207). -/
def Encoding : Vocab :=
  ⟨[⟨pystr "DBN", pystr "dbn", []⟩,
    ⟨pystr "CSV", pystr "csv", []⟩,
    ⟨pystr "JSON", pystr "json", []⟩]⟩

/-- The `Compression` vocabulary (enums.py lines 210-216). -/
def Compression : Vocab :=
  ⟨[⟨pystr "NONE", pystr "none", []⟩,
    ⟨pystr "ZSTD", pystr "zstd", []⟩]⟩

/-- The `SplitDuration` vocabulary (enums.py lines 219-227). -/
def SplitDuration : Vocab :=
  ⟨[⟨pystr "DAY", pystr "day", []⟩,
    ⟨pystr "WEEK", pystr "week", []⟩,
    ⟨pystr "MONTH", pystr "month", []⟩,
    ⟨pystr "NONE", pystr "none", []⟩]⟩

/-- The `Packaging` vocabulary (enums.py lines 230-237). -/
def Packaging : Vocab :=
  ⟨[⟨pystr "NONE", pystr "none", []⟩,
    ⟨pystr "ZIP", pystr "zip", []⟩,
    ⟨pystr "TAR", pystr "tar", []⟩]⟩

/-- The `Delivery` vocabulary (enums.py lines 240-247). -/
def Delivery : Vocab :=
  ⟨[⟨pystr "DOWNLOAD", pystr "download", []⟩,
    ⟨pystr "S3", pystr "s3", []⟩,
    ⟨pystr "DISK", pystr "disk", []⟩]⟩

/-- The `SType` vocabulary (enums.py lines 259-288).  The deprecated members
carry the extra value strings of their class-body tuples in `args`
(consumed by `SType.__new__` as `*args`); `_value_` is the first tuple
component only. -/
def SType : Vocab :=
  ⟨[⟨pystr "PRODUCT_ID", pystr "product_id", [pystr "instrument_id"]⟩,
    ⟨pystr "NATIVE", pystr "native", [pystr "raw_symbol"]⟩,
    ⟨pystr "SMART", pystr "smart", [pystr "parent", pystr "continuous"]⟩,
    ⟨pystr "INSTRUMENT_ID", pystr "instrument_id", []⟩,
    ⟨pystr "RAW_SYMBOL", pystr "raw_symbol", []⟩,
    ⟨pystr "PARENT", pystr "parent", []⟩,
    ⟨pystr "CONTINUOUS", pystr "continuous", []⟩]⟩

/-- The `RollRule` vocabulary (enums.py lines 291-298).  The value of
`OPEN_INTEREST` is `"open_interst"` in the source (sic). -/
def RollRule : Vocab :=
  ⟨[⟨pystr "VOLUME", pystr "volume", []⟩,
    ⟨pystr "OPEN_INTEREST", pystr "open_interst", []⟩,
    ⟨pystr "CALENDAR", pystr "calendar", []⟩]⟩

/-- The `SymbologyResolution` vocabulary (enums.py lines 301-314). -/
def SymbologyResolution : Vocab :=
  ⟨[⟨pystr "OK", pystr "ok", []⟩,
    ⟨pystr "PARTIAL", pystr "partial", []⟩,
    ⟨pystr "NOT_FOUND", pystr "not_found", []⟩]⟩

/-- All coercible string-valued vocabularies of enums.py, in source order.
(`RecordFlags` is the one coercible int-valued vocabulary and is embedded
separately.) -/
def allStringVocabs : List Vocab :=
  [HistoricalGateway, LiveGateway, FeedMode, Dataset, Schema, Encoding,
   Compression, SplitDuration, Packaging, Delivery, SType, RollRule,
   SymbologyResolution]

/-- The concrete facts about a vocabulary's two lookup tables that make the
spelling-normalisation algorithm of `coerced_new` return the canonical
member: the lowercased value of each member resolves (through one of the two
tables) to that member; each member's symbolic name resolves to it; and the
name-normalised form of a member's value never collides with a different
member's name. -/
def vocabLookupFacts (v : Vocab) : Prop :=
  (∀ m ∈ v.members,
      lookupValue v (pyLower m.value) = some m ∨
      (lookupValue v (pyLower m.value) = none ∧
       lookupName v (normName m.value) = some m)) ∧
  (∀ m ∈ v.members, lookupName v m.name = some m) ∧
  (∀ m ∈ v.members, ∀ m2 ∈ v.members, normName m2.value = m.name → m2 = m)

instance (v : Vocab) : Decidable (vocabLookupFacts v) := by
  unfold vocabLookupFacts
  infer_instance

/-- Result of `coerced_new` for the int-valued `RecordFlags` vocabulary. -/
inductive IntCoerceResult
  | ok (value : Nat)
  | typeError
deriving DecidableEq

/-- Embedding of `coerced_new` (enums.py lines 57-74) as installed on the
int-valued `RecordFlags` vocabulary (enums.py lines 317-338), for inputs
that are Python `None` or non-negative ints: `None` is rejected with
`TypeError` before any coercion is attempted; for an int `n`, `coerce_fn`
is `int`, the identity on ints, and the `IntFlag` value lookup yields the
declared member or a flag (pseudo-)member carrying that integer value. -/
def recordFlagsCoerced_new (input : Option Nat) : IntCoerceResult :=
  match input with
  | none => IntCoerceResult.typeError
  | some n => IntCoerceResult.ok n

/-- The data interpolated into the `DeprecationWarning` message raised by
`SType.__deprecated` (enums.py lines 282-288): the member's value
(`self.value`) and the replacement value strings joined by " or "
(`other_values`). -/
structure DeprecationNotice where
  value : PyStr
  replacements : List PyStr
deriving DecidableEq

/-- The warnings fired by one call of `obj._on_access()`: `SType.__new__`
(enums.py line 276) sets `_on_access` to `__deprecated` exactly when the
member declared extra args, so one warning is emitted per access of a
deprecated member and none for other members. -/
def onAccessWarnings (m : VocabMember) : List DeprecationNotice :=
  match m.args with
  | [] => []
  | _ => [⟨m.value, m.args⟩]

/-- Embedding of `DeprecatedAccess.__getattribute__` (enums.py lines 86-90)
for member names: attribute access returns the member found under the name
and fires `_on_access` once when it is set; a name with no member raises
`AttributeError` (`none`). -/
def stype_getattr (n : PyStr) : Option (VocabMember × List DeprecationNotice) :=
  match lookupName SType n with
  | some m => some (m, onAccessWarnings m)
  | none => none

/-- Embedding of `DeprecatedAccess.__getitem__` (enums.py lines 92-96): item
lookup by name returns the member and fires `_on_access` once when it is
set; a missing name raises `KeyError` (`none`). -/
def stype_getitem (n : PyStr) : Option (VocabMember × List DeprecationNotice) :=
  match lookupName SType n with
  | some m => some (m, onAccessWarnings m)
  | none => none

/-- Embedding of `DeprecatedAccess.__call__` (enums.py lines 98-118):
construction/coercion runs `coerced_new` and, on success, fires the returned
member's `_on_access` once; a raised `TypeError`/`ValueError` propagates
with no warning. -/
def stype_call (value : Option PyStr) : CoerceResult × List DeprecationNotice :=
  match coerced_new SType value with
  | CoerceResult.ok m => (CoerceResult.ok m, onAccessWarnings m)
  | r => (r, [])

/-- Embedding of `StringyMixin.__str__` (enums.py lines 133-138) for a
string-valued enum member: neither a `Flag` nor an int subclass, so `str()`
returns the member's value. -/
def stypeStr (m : VocabMember) : PyStr := m.value

/-- The objects an `SType` member is compared against in this embedding,
with their Python `str()` images: another member, or a plain string. -/
inductive StrLike
  | member (m : VocabMember)
  | rawStr (s : PyStr)

/-- Python `str()` of a comparison operand: a member stringifies through
`StringyMixin.__str__`, a plain string is its own `str()` image. -/
def pyStrOf : StrLike → PyStr
  | StrLike.member m => stypeStr m
  | StrLike.rawStr s => s

/-- Embedding of `SType.__eq__` (enums.py lines 279-280):
`str(self) == str(other)`. -/
def stype_eq (m : VocabMember) (other : StrLike) : Bool :=
  stypeStr m == pyStrOf other

/-- The decoded JSON body of an error response, as far as `check_http_error`
consumes it: a JSON object with an optional "detail" entry
(`json.get("detail")`). -/
structure JsonBody where
  detail : Option PyStr
deriving DecidableEq

/-- An HTTP response as consumed by the error classifier (http.py): status
code, raw body bytes, headers, and the result of parsing the body as JSON
(`none` models `response.json()` raising `JSONDecodeError`). -/
structure HttpResponse where
  status_code : Nat
  content : List Nat
  headers : List (PyStr × PyStr)
  json_parse : Option JsonBody
deriving DecidableEq

/-- The payload of `BentoClientError`/`BentoServerError` as raised by
`check_http_error` (http.py lines 258-264 and 272-278). -/
structure BentoError where
  http_status : Nat
  http_body : List Nat
  json_body : Option JsonBody
  message : Option PyStr
  headers : List (PyStr × PyStr)
deriving DecidableEq

/-- The `detail` message extracted by the `try`-block of `check_http_error`:
`json.get("detail")` when the body parses, `None` when `JSONDecodeError` is
caught. -/
def jsonDetail : Option JsonBody → Option PyStr
  | some j => j.detail
  | none => none

/-- Embedding of `is_400_series_error` (http.py lines 242-243):
`status // 100 == 4`. -/
def is_400_series_error (status : Nat) : Bool := status / 100 == 4

/-- Embedding of `is_500_series_error` (http.py lines 246-247):
`status // 100 == 5`. -/
def is_500_series_error (status : Nat) : Bool := status / 100 == 5

/-- The error payload built by either branch of `check_http_error` (the
`try: json = response.json(); message = json.get("detail") except
JSONDecodeError: json = None; message = None` block duplicated in both
branches of the source). -/
def bentoErrorOf (r : HttpResponse) : BentoError :=
  match r.json_parse with
  | some j => ⟨r.status_code, r.content, some j, j.detail, r.headers⟩
  | none => ⟨r.status_code, r.content, none, none, r.headers⟩

/-- Outcome of `check_http_error`: raised server error, raised client
error, or normal return with the response untouched. -/
inductive CheckOutcome
  | passthrough (r : HttpResponse)
  | clientError (e : BentoError)
  | serverError (e : BentoError)
deriving DecidableEq

/-- Embedding of `check_http_error` (http.py lines 250-278): a 5xx status
raises `BentoServerError`, a 4xx status raises `BentoClientError`, any
other status returns normally. -/
def check_http_error (r : HttpResponse) : CheckOutcome :=
  if is_500_series_error r.status_code then
    CheckOutcome.serverError (bentoErrorOf r)
  else if is_400_series_error r.status_code then
    CheckOutcome.clientError (bentoErrorOf r)
  else CheckOutcome.passthrough r

/-- Outcome of `check_http_error_async` (http.py lines 281-299).  Unlike the
sync variant there is no `try`: an unparseable body propagates the decode
failure from `await response.json()`, and a parsed JSON object without a
"detail" key propagates a `KeyError` from `json["detail"]`. -/
inductive AsyncCheckOutcome
  | passthrough (r : HttpResponse)
  | clientError (e : BentoError)
  | serverError (e : BentoError)
  | jsonDecodeFailure
  | missingDetail
deriving DecidableEq

/-- Embedding of `check_http_error_async` (http.py lines 281-299). -/
def check_http_error_async (r : HttpResponse) : AsyncCheckOutcome :=
  if is_500_series_error r.status_code then
    match r.json_parse with
    | none => AsyncCheckOutcome.jsonDecodeFailure
    | some j =>
      match j.detail with
      | none => AsyncCheckOutcome.missingDetail
      | some d =>
        AsyncCheckOutcome.serverError ⟨r.status_code, r.content, some j, some d, r.headers⟩
  else if is_400_series_error r.status_code then
    match r.json_parse with
    | none => AsyncCheckOutcome.jsonDecodeFailure
    | some j =>
      match j.detail with
      | none => AsyncCheckOutcome.missingDetail
      | some d =>
        AsyncCheckOutcome.clientError ⟨r.status_code, r.content, some j, some d, r.headers⟩
  else AsyncCheckOutcome.passthrough r

/-- The sentinel chunk `b"No data found for query."` (http.py line 24). -/
def _NO_DATA_FOUND : List Nat := pystr "No data found for query."

/-- What the chunk loop of `_stream`/`_stream_async` did: the chunks written
to the writer, in order, and whether the no-data condition was logged. -/
structure StreamOutcome where
  written : List (List Nat)
  loggedNoData : Bool
deriving DecidableEq

/-- Embedding of the chunk loop of `BentoHttpAPI._stream` (http.py lines
200-204) and `_stream_async` (lines 234-239): each chunk delivered by the
transport (`iter_content(chunk_size=_16KB)` / `iter_chunks()`) is written to
the writer unless it equals `_NO_DATA_FOUND`, in which case the condition is
logged via `log_info` and the loop returns without error. -/
def stream_chunk_loop : List (List Nat) → StreamOutcome
  | [] => ⟨[], false⟩
  | chunk :: rest =>
    if chunk = _NO_DATA_FOUND then ⟨[], true⟩
    else
      let o := stream_chunk_loop rest
      ⟨chunk :: o.written, o.loggedNoData⟩

/-- The literal placeholder access key rejected by `_check_access_key`
(http.py line 105). -/
def PLACEHOLDER_KEY : PyStr := pystr "YOUR_ACCESS_KEY"

/-- Result of `BentoHttpAPI._check_access_key` (http.py lines 104-110):
raises an explanatory `ValueError` when the configured key is the
placeholder. -/
inductive KeyCheck
  | ok
  | placeholderError
deriving DecidableEq

/-- Embedding of `BentoHttpAPI._check_access_key` (http.py lines 104-110). -/
def _check_access_key (key : PyStr) : KeyCheck :=
  if key = PLACEHOLDER_KEY then KeyCheck.placeholderError else KeyCheck.ok

/-- The ways an outbound operation of `BentoHttpAPI` terminates
abnormally. -/
inductive OpFailure
  | placeholderKey
  | clientError (e : BentoError)
  | serverError (e : BentoError)
  | uncaughtJsonFailure
  | uncaughtMissingDetail
deriving DecidableEq

/-- A run of one outbound operation: the query of each network request it
issued (in order), and its result. -/
structure OpRun (α : Type) where
  queries : List (List (PyStr × PyStr))
  result : Except OpFailure α

/-- Embedding of the `[x for x in params if x[1] is not None]` comprehension
of `_stream_async` (http.py line 219): drop unset parameters, keep order. -/
def sentParams (params : List (PyStr × Option PyStr)) : List (PyStr × PyStr) :=
  params.filterMap (fun p =>
    match p.2 with
    | some v => some (p.1, v)
    | none => none)

/-- Embedding of `BentoHttpAPI._get` (http.py lines 112-130): check the
access key (raising before any network I/O when it is the placeholder),
perform one GET with the given query, classify the response with
`check_http_error`, and return the response unchanged when no error is
raised. -/
def _get (key : PyStr) (params : List (PyStr × PyStr)) (r : HttpResponse) :
    OpRun HttpResponse :=
  match _check_access_key key with
  | KeyCheck.placeholderError => ⟨[], Except.error OpFailure.placeholderKey⟩
  | KeyCheck.ok =>
    ⟨[params],
      match check_http_error r with
      | CheckOutcome.passthrough r2 => Except.ok r2
      | CheckOutcome.clientError e => Except.error (OpFailure.clientError e)
      | CheckOutcome.serverError e => Except.error (OpFailure.serverError e)⟩

/-- Embedding of `BentoHttpAPI._get_async` (http.py lines 132-150): as
`_get`, but the response is classified with `check_http_error_async`. -/
def _get_async (key : PyStr) (params : List (PyStr × PyStr)) (r : HttpResponse) :
    OpRun HttpResponse :=
  match _check_access_key key with
  | KeyCheck.placeholderError => ⟨[], Except.error OpFailure.placeholderKey⟩
  | KeyCheck.ok =>
    ⟨[params],
      match check_http_error_async r with
      | AsyncCheckOutcome.passthrough r2 => Except.ok r2
      | AsyncCheckOutcome.clientError e => Except.error (OpFailure.clientError e)
      | AsyncCheckOutcome.serverError e => Except.error (OpFailure.serverError e)
      | AsyncCheckOutcome.jsonDecodeFailure => Except.error OpFailure.uncaughtJsonFailure
      | AsyncCheckOutcome.missingDetail => Except.error OpFailure.uncaughtMissingDetail⟩

/-- Embedding of `BentoHttpAPI._post` (http.py lines 152-170): identical
control flow to `_get` with a POST request. -/
def _post (key : PyStr) (params : List (PyStr × PyStr)) (r : HttpResponse) :
    OpRun HttpResponse :=
  match _check_access_key key with
  | KeyCheck.placeholderError => ⟨[], Except.error OpFailure.placeholderKey⟩
  | KeyCheck.ok =>
    ⟨[params],
      match check_http_error r with
      | CheckOutcome.passthrough r2 => Except.ok r2
      | CheckOutcome.clientError e => Except.error (OpFailure.clientError e)
      | CheckOutcome.serverError e => Except.error (OpFailure.serverError e)⟩

/-- Embedding of `BentoHttpAPI._stream` (http.py lines 172-204): check the
access key, perform one streaming GET, classify the response, then run the
chunk loop writing to the (possibly decompressing) writer. -/
def _stream (key : PyStr) (params : List (PyStr × PyStr)) (r : HttpResponse)
    (chunks : List (List Nat)) : OpRun StreamOutcome :=
  match _check_access_key key with
  | KeyCheck.placeholderError => ⟨[], Except.error OpFailure.placeholderKey⟩
  | KeyCheck.ok =>
    ⟨[params],
      match check_http_error r with
      | CheckOutcome.passthrough _ => Except.ok (stream_chunk_loop chunks)
      | CheckOutcome.clientError e => Except.error (OpFailure.clientError e)
      | CheckOutcome.serverError e => Except.error (OpFailure.serverError e)⟩

/-- Embedding of `BentoHttpAPI._stream_async` (http.py lines 206-239): check
the access key, perform one streaming GET whose query is the params list
with unset values dropped (line 219), classify the response with
`check_http_error_async`, then run the chunk loop. -/
def _stream_async (key : PyStr) (params : List (PyStr × Option PyStr))
    (r : HttpResponse) (chunks : List (List Nat)) : OpRun StreamOutcome :=
  match _check_access_key key with
  | KeyCheck.placeholderError => ⟨[], Except.error OpFailure.placeholderKey⟩
  | KeyCheck.ok =>
    ⟨[sentParams params],
      match check_http_error_async r with
      | AsyncCheckOutcome.passthrough _ => Except.ok (stream_chunk_loop chunks)
      | AsyncCheckOutcome.clientError e => Except.error (OpFailure.clientError e)
      | AsyncCheckOutcome.serverError e => Except.error (OpFailure.serverError e)
      | AsyncCheckOutcome.jsonDecodeFailure => Except.error OpFailure.uncaughtJsonFailure
      | AsyncCheckOutcome.missingDetail => Except.error OpFailure.uncaughtMissingDetail⟩

/-- Modelled from the spec: `enum_or_str_lowercase` (databento.common.parsing,
not under src/) normalises the dataset argument to its lowercase string form
("lowercase for string-valued vocabularies"). -/
def enum_or_str_lowercase (s : PyStr) : PyStr := pyLower s

/-- Modelled from the spec: `maybe_symbols_list_to_string`
(databento.common.parsing, not under src/) maps an unset symbols parameter
to `None` ("omitting parameters that are unset"); a provided symbols
argument is taken here already in its string form, which the helper
returns. -/
def maybe_symbols_list_to_string (s : Option PyStr) : Option PyStr := s

/-- Modelled from the spec: `maybe_datetime_to_string`
(databento.common.parsing, not under src/) maps an unset start/end parameter
to `None` ("omitting parameters that are unset"); a provided timestamp is
taken here already in its string form, which the helper returns. -/
def maybe_datetime_to_string (s : Option PyStr) : Option PyStr := s

/-- Python `str()` of a non-negative int, for `str(limit)`. -/
def natToPyStr (n : Nat) : PyStr := pystr (toString n)

/-- The arguments of `BentoHttpAPI._timeseries_params` (http.py lines
38-51), with the enum-typed ones read off as their value strings; `stop`
models the `end` parameter (`end` is reserved in Lean). -/
structure TimeseriesArgs where
  dataset : PyStr
  symbols : Option PyStr
  schema : PyStr
  start : Option PyStr
  stop : Option PyStr
  limit : Option Nat
  encoding : PyStr
  compression : PyStr
  stype_in : PyStr
  stype_out : PyStr
deriving DecidableEq

/-- Embedding of `BentoHttpAPI._timeseries_params` (http.py lines 38-74):
parse the inputs, build the fixed-order params list, append `limit` when
set. -/
def _timeseries_params (a : TimeseriesArgs) : List (PyStr × Option PyStr) :=
  let dataset := enum_or_str_lowercase a.dataset
  let symbols := maybe_symbols_list_to_string a.symbols
  let start := maybe_datetime_to_string a.start
  let stop := maybe_datetime_to_string a.stop
  let params : List (PyStr × Option PyStr) :=
    [(pystr "dataset", some dataset),
     (pystr "symbols", symbols),
     (pystr "schema", some a.schema),
     (pystr "start", start),
     (pystr "end", stop),
     (pystr "encoding", some a.encoding),
     (pystr "compression", some a.compression),
     (pystr "stype_in", some a.stype_in),
     (pystr "stype_out", some a.stype_out)]
  match a.limit with
  | some l => params ++ [(pystr "limit", some (natToPyStr l))]
  | none => params

/-- One key-value pair when the optional value is set, nothing otherwise
(used to state which pairs survive the unset-parameter filter). -/
def optPair (k : PyStr) : Option PyStr → List (PyStr × PyStr)
  | some v => [(k, v)]
  | none => []

/-- The byte container handed back by `_create_io`: `BentoMemoryIO` or
`BentoDiskIO` with their constructor arguments (http.py lines 84-102). -/
inductive BentoIoTarget
  | memoryIo (schema encoding compression : PyStr)
  | diskIo (path schema encoding compression : PyStr)
deriving DecidableEq

/-- Result of `_create_io`, with the state of the file system (the list of
existing file paths) it leaves behind.  `fileExistsError` models the raised
`FileExistsError`; the file system it carries is untouched. -/
inductive CreateIoResult
  | ok (fs : List PyStr) (target : BentoIoTarget)
  | fileExistsError (fs : List PyStr) (path : PyStr)
deriving DecidableEq

/-- Embedding of `BentoHttpAPI._create_io` (http.py lines 76-102) over a
file system given as the list of existing file paths: `os.path.isfile` is
membership, `os.remove` is removal; a `None` path yields a memory-backed
container. -/
def _create_io (fs : List PyStr) (path : Option PyStr)
    (schema encoding compression : PyStr) (overwrite : Bool) : CreateIoResult :=
  match path with
  | none => CreateIoResult.ok fs (BentoIoTarget.memoryIo schema encoding compression)
  | some p =>
    if p ∈ fs then
      if overwrite then
        CreateIoResult.ok (fs.erase p)
          (BentoIoTarget.diskIo p schema encoding compression)
      else CreateIoResult.fileExistsError fs p
    else CreateIoResult.ok fs (BentoIoTarget.diskIo p schema encoding compression)

/-! ## Helper lemmas -/

theorem normName_eq_map (s : PyStr) : normName s = s.map normCode := by
  simp [normName, pyUpper, pySubst, normCode, List.map_map]

theorem lowerCode_idem (n : Nat) : lowerCode (lowerCode n) = lowerCode n := by
  unfold lowerCode
  split_ifs <;> omega

theorem normCode_congr_of_lowerCode (n1 n2 : Nat) (h : lowerCode n1 = lowerCode n2) :
    normCode n1 = normCode n2 := by
  unfold lowerCode at h
  unfold normCode upperCode substCode
  split_ifs at h ⊢ <;> omega

theorem map_congr_of_map_eq {f g : Nat → Nat} (h : ∀ x y, f x = f y → g x = g y) :
    ∀ a b : List Nat, a.map f = b.map f → a.map g = b.map g
  | [], [], _ => rfl
  | [], _ :: _, hm => by simp at hm
  | _ :: _, [], hm => by simp at hm
  | x :: xs, y :: ys, hm => by
    simp only [List.map_cons, List.cons.injEq] at hm ⊢
    exact ⟨h x y hm.1, map_congr_of_map_eq h xs ys hm.2⟩

theorem normName_congr_of_pyLower (a b : PyStr) (h : pyLower a = pyLower b) :
    normName a = normName b := by
  rw [normName_eq_map, normName_eq_map]
  exact map_congr_of_map_eq normCode_congr_of_lowerCode a b h

theorem pyLower_idem (s : PyStr) : pyLower (pyLower s) = pyLower s := by
  simp only [pyLower, List.map_map]
  exact List.map_congr_left (fun n _ => lowerCode_idem n)

theorem allStringVocabs_lookupFacts : ∀ v ∈ allStringVocabs, vocabLookupFacts v := by
  decide

theorem coerced_new_ok_of_spelling (v : Vocab) (hv : vocabLookupFacts v)
    (m : VocabMember) (hm : m ∈ v.members) (input : PyStr)
    (h : pyLower input = pyLower m.value ∨ normName input = m.name) :
    coerced_new v (some input) = CoerceResult.ok m := by
  obtain ⟨f1, f2, f3⟩ := hv
  rcases h with hlow | hname
  · rcases f1 m hm with hv1 | ⟨hv0, hn1⟩
    · simp [coerced_new, hlow, hv1]
    · have hnn : normName input = normName m.value := normName_congr_of_pyLower _ _ hlow
      simp [coerced_new, hlow, hv0, hnn, hn1]
  · cases hval : lookupValue v (pyLower input) with
    | none => simp [coerced_new, hval, hname, f2 m hm]
    | some m2 =>
      have hmem : m2 ∈ v.members := List.mem_of_find?_eq_some hval
      have hpred := List.find?_some hval
      have hv2 : m2.value = pyLower input := by
        simpa using hpred
      have hnn : normName input = normName (pyLower input) :=
        normName_congr_of_pyLower _ _ (pyLower_idem input).symm
      have hcoll : normName m2.value = m.name := by
        rw [hv2, ← hnn, hname]
      have heq : m2 = m := f3 m hm m2 hmem hcoll
      simp [coerced_new, hval, heq]

/-! ## Claims -/

/-- C2: For every member of a coercible string-valued vocabulary and every
supported spelling of that member — its canonical value string, any case
variant of it, or its symbolic name with dashes or dots in place of
underscores, in any case — coercing that spelling returns the same
canonical member. -/
theorem coercion_accepts_all_spellings :
    ∀ v ∈ allStringVocabs, ∀ m ∈ v.members, ∀ input : PyStr,
      (pyLower input = pyLower m.value ∨ normName input = m.name) →
      coerced_new v (some input) = CoerceResult.ok m := by
  intro v hv m hm input h
  exact coerced_new_ok_of_spelling v (allStringVocabs_lookupFacts v hv) m hm input h

/-- Witness for C2: the lowercase, dash-for-underscore spelling
"glbx-mdp3" coerces to the `GLBX_MDP3` member of `Dataset`, whose
canonical value is "GLBX.MDP3". -/
theorem coercion_accepts_all_spellings_witness :
    coerced_new Dataset (some (pystr "glbx-mdp3")) =
      CoerceResult.ok ⟨pystr "GLBX_MDP3", pystr "GLBX.MDP3", []⟩ :=
  coercion_accepts_all_spellings Dataset (by decide)
    ⟨pystr "GLBX_MDP3", pystr "GLBX.MDP3", []⟩ (by decide)
    (pystr "glbx-mdp3") (Or.inr (by decide))

/-- C6: Coercing `None` into any coercible vocabulary — each string-valued
one, and the int-valued `RecordFlags` — fails with a `TypeError`, never a
`ValueError`. -/
theorem coercing_none_raises_type_error :
    (∀ v ∈ allStringVocabs, coerced_new v none = CoerceResult.typeError) ∧
    recordFlagsCoerced_new none = IntCoerceResult.typeError :=
  ⟨fun _ _ => rfl, rfl⟩

/-- Witness for C6 at the `Schema` vocabulary. -/
theorem coercing_none_raises_type_error_witness :
    coerced_new Schema none = CoerceResult.typeError :=
  coercing_none_raises_type_error.1 Schema (by decide)

/-- C7: For every non-None input matching neither the value table (after
lowercasing) nor the symbolic-name table (after uppercase and
dot/dash-to-underscore substitution), coercion raises a `ValueError` whose
message names the invalid value and enumerates every legal value of the
vocabulary. -/
theorem unrecognized_value_raises_value_error :
    ∀ v ∈ allStringVocabs, ∀ input : PyStr,
      lookupValue v (pyLower input) = none →
      lookupName v (normName input) = none →
      coerced_new v (some input) =
        CoerceResult.valueError input (v.members.map (fun m => m.value)) := by
  intro v _ input h1 h2
  simp [coerced_new, h1, h2]

/-- Witness for C7: "zzz" is not a member of `Encoding` under either
lookup, so coercion fails with a `ValueError` naming "zzz" and listing all
three legal values. -/
theorem unrecognized_value_raises_value_error_witness :
    coerced_new Encoding (some (pystr "zzz")) =
      CoerceResult.valueError (pystr "zzz")
        [pystr "dbn", pystr "csv", pystr "json"] :=
  unrecognized_value_raises_value_error Encoding (by decide) (pystr "zzz")
    (by decide) (by decide)

/-- C1 counterexample: attribute access of the deprecated `SType.PRODUCT_ID`
emits exactly one DeprecationWarning naming `instrument_id`, but returns the
`PRODUCT_ID` member itself, which does not compare equal — under `SType`'s
canonical comparison `SType.__eq__`, which compares stringifications — to
the non-deprecated replacement member `INSTRUMENT_ID`. -/
theorem stype_deprecated_access_counterexample :
    stype_getattr (pystr "PRODUCT_ID") =
      some (⟨pystr "PRODUCT_ID", pystr "product_id", [pystr "instrument_id"]⟩,
        [⟨pystr "product_id", [pystr "instrument_id"]⟩]) ∧
    stype_eq ⟨pystr "PRODUCT_ID", pystr "product_id", [pystr "instrument_id"]⟩
      (StrLike.member ⟨pystr "INSTRUMENT_ID", pystr "instrument_id", []⟩) = false := by
  decide

/-- C1 (amended): for every deprecated `SType` member, each access — by
attribute, by item lookup, or by construction/coercion from its canonical
value — emits exactly one DeprecationWarning naming the current member(s)
to use instead, and returns the deprecated member itself, unchanged: it
compares equal, under the canonical comparison, to its own canonical value
string (not to the replacement member). -/
theorem stype_deprecated_access_amended :
    ∀ m ∈ SType.members, m.args ≠ [] →
      stype_getattr m.name = some (m, [⟨m.value, m.args⟩]) ∧
      stype_getitem m.name = some (m, [⟨m.value, m.args⟩]) ∧
      stype_call (some m.value) = (CoerceResult.ok m, [⟨m.value, m.args⟩]) ∧
      stype_eq m (StrLike.rawStr m.value) = true := by
  decide

/-- Witness for C1 (amended) at the deprecated member `PRODUCT_ID`. -/
theorem stype_deprecated_access_amended_witness :
    stype_getattr (pystr "PRODUCT_ID") =
      some (⟨pystr "PRODUCT_ID", pystr "product_id", [pystr "instrument_id"]⟩,
        [⟨pystr "product_id", [pystr "instrument_id"]⟩]) ∧
    stype_getitem (pystr "PRODUCT_ID") =
      some (⟨pystr "PRODUCT_ID", pystr "product_id", [pystr "instrument_id"]⟩,
        [⟨pystr "product_id", [pystr "instrument_id"]⟩]) ∧
    stype_call (some (pystr "product_id")) =
      (CoerceResult.ok ⟨pystr "PRODUCT_ID", pystr "product_id", [pystr "instrument_id"]⟩,
        [⟨pystr "product_id", [pystr "instrument_id"]⟩]) ∧
    stype_eq ⟨pystr "PRODUCT_ID", pystr "product_id", [pystr "instrument_id"]⟩
      (StrLike.rawStr (pystr "product_id")) = true :=
  stype_deprecated_access_amended
    ⟨pystr "PRODUCT_ID", pystr "product_id", [pystr "instrument_id"]⟩
    (by decide) (by decide)

/-- C10: `SType` equality is determined entirely by stringification: a
member compares equal to an object exactly when their `str()` images agree;
in particular every member compares equal to its own canonical value
string, and two members with different canonical values are never equal. -/
theorem stype_equality_is_stringification :
    (∀ m ∈ SType.members, ∀ x : StrLike,
      stype_eq m x = true ↔ stypeStr m = pyStrOf x) ∧
    (∀ m ∈ SType.members, stype_eq m (StrLike.rawStr m.value) = true) ∧
    (∀ m1 ∈ SType.members, ∀ m2 ∈ SType.members,
      m1.value ≠ m2.value → stype_eq m1 (StrLike.member m2) = false) := by
  refine ⟨?_, by decide, by decide⟩
  intro m _ x
  simp [stype_eq]

/-- Witness for C10: `NATIVE` equals its own value string "native", and
`PARENT` does not equal `CONTINUOUS`. -/
theorem stype_equality_is_stringification_witness :
    stype_eq ⟨pystr "NATIVE", pystr "native", [pystr "raw_symbol"]⟩
      (StrLike.rawStr (pystr "native")) = true ∧
    stype_eq ⟨pystr "PARENT", pystr "parent", []⟩
      (StrLike.member ⟨pystr "CONTINUOUS", pystr "continuous", []⟩) = false :=
  ⟨stype_equality_is_stringification.2.1 _ (by decide),
   stype_equality_is_stringification.2.2 _ (by decide) _ (by decide) (by decide)⟩

theorem bentoErrorOf_fields (r : HttpResponse) :
    bentoErrorOf r =
      ⟨r.status_code, r.content, r.json_parse, jsonDetail r.json_parse, r.headers⟩ := by
  cases h : r.json_parse <;> simp [bentoErrorOf, jsonDetail, h]

/-- C3: every response with a 400-499 status raises a client error and every
response with a 500-599 status raises a server error, each carrying the
unchanged status code, the raw body bytes, the headers, and the JSON
`detail` message when the body parses as JSON; any response with a status
outside 400-599 passes through unchanged. -/
theorem http_error_classification (r : HttpResponse) :
    (400 ≤ r.status_code ∧ r.status_code ≤ 499 →
      check_http_error r = CheckOutcome.clientError
        ⟨r.status_code, r.content, r.json_parse, jsonDetail r.json_parse, r.headers⟩) ∧
    (500 ≤ r.status_code ∧ r.status_code ≤ 599 →
      check_http_error r = CheckOutcome.serverError
        ⟨r.status_code, r.content, r.json_parse, jsonDetail r.json_parse, r.headers⟩) ∧
    (r.status_code < 400 ∨ 600 ≤ r.status_code →
      check_http_error r = CheckOutcome.passthrough r) := by
  have hb := bentoErrorOf_fields r
  refine ⟨?_, ?_, ?_⟩ <;> intro h
  · have h5 : is_500_series_error r.status_code = false := by
      simp [is_500_series_error]
      omega
    have h4 : is_400_series_error r.status_code = true := by
      simp [is_400_series_error]
      omega
    simp [check_http_error, h5, h4, hb]
  · have h5 : is_500_series_error r.status_code = true := by
      simp [is_500_series_error]
      omega
    simp [check_http_error, h5, hb]
  · have h5 : is_500_series_error r.status_code = false := by
      simp [is_500_series_error]
      omega
    have h4 : is_400_series_error r.status_code = false := by
      simp [is_400_series_error]
      omega
    simp [check_http_error, h5, h4]

/-- Witness for C3: a 404 yields a client error, a 503 a server error (with
the parsed detail message), and a 200 passes through unchanged. -/
theorem http_error_classification_witness :
    check_http_error ⟨404, pystr "not found", [], none⟩ =
      CheckOutcome.clientError ⟨404, pystr "not found", none, none, []⟩ ∧
    check_http_error ⟨503, pystr "oops", [], some ⟨some (pystr "overloaded")⟩⟩ =
      CheckOutcome.serverError
        ⟨503, pystr "oops", some ⟨some (pystr "overloaded")⟩,
          some (pystr "overloaded"), []⟩ ∧
    check_http_error ⟨200, pystr "data", [], none⟩ =
      CheckOutcome.passthrough ⟨200, pystr "data", [], none⟩ :=
  ⟨(http_error_classification _).1 (by decide),
   (http_error_classification _).2.1 (by decide),
   (http_error_classification _).2.2 (by decide)⟩

/-- C4: every received chunk is forwarded to the writer unless it equals the
`No data found for query.` sentinel, at which point streaming stops
immediately with the condition logged (never raised); in particular a
response whose whole body is the sentinel writes nothing. -/
theorem stream_stops_at_no_data_sentinel (chunks : List (List Nat)) :
    (stream_chunk_loop chunks).written =
      chunks.takeWhile (fun c => !(c == _NO_DATA_FOUND)) ∧
    ((stream_chunk_loop chunks).loggedNoData = true ↔ _NO_DATA_FOUND ∈ chunks) ∧
    stream_chunk_loop [_NO_DATA_FOUND] = ⟨[], true⟩ := by
  refine ⟨?_, ?_, by decide⟩
  · induction chunks with
    | nil => rfl
    | cons c rest ih =>
      by_cases hc : c = _NO_DATA_FOUND
      · simp [stream_chunk_loop, hc, List.takeWhile_cons]
      · simp [stream_chunk_loop, hc, List.takeWhile_cons, ih]
  · induction chunks with
    | nil => simp [stream_chunk_loop]
    | cons c rest ih =>
      by_cases hc : c = _NO_DATA_FOUND
      · simp [stream_chunk_loop, hc]
      · simp [stream_chunk_loop, hc, ih]
        exact fun h => absurd h.symm hc

/-- C5: with the access key set to the literal placeholder, each of the five
outbound operations fails with the placeholder-key error and issues no
network request; conversely any run that issued a network request was not
made with the placeholder key (the check precedes all network I/O). -/
theorem placeholder_key_fails_before_network (key : PyStr)
    (params : List (PyStr × PyStr)) (oparams : List (PyStr × Option PyStr))
    (r : HttpResponse) (chunks : List (List Nat)) :
    (key = PLACEHOLDER_KEY →
      _get key params r = ⟨[], Except.error OpFailure.placeholderKey⟩ ∧
      _get_async key params r = ⟨[], Except.error OpFailure.placeholderKey⟩ ∧
      _post key params r = ⟨[], Except.error OpFailure.placeholderKey⟩ ∧
      _stream key params r chunks = ⟨[], Except.error OpFailure.placeholderKey⟩ ∧
      _stream_async key oparams r chunks =
        ⟨[], Except.error OpFailure.placeholderKey⟩) ∧
    ((_get key params r).queries ≠ [] ∨ (_get_async key params r).queries ≠ [] ∨
      (_post key params r).queries ≠ [] ∨
      (_stream key params r chunks).queries ≠ [] ∨
      (_stream_async key oparams r chunks).queries ≠ [] →
      key ≠ PLACEHOLDER_KEY) := by
  constructor
  · intro hk
    refine ⟨?_, ?_, ?_, ?_, ?_⟩ <;>
      simp [_get, _get_async, _post, _stream, _stream_async, _check_access_key, hk]
  · intro hq hk
    rw [hk] at hq
    simp [_get, _get_async, _post, _stream, _stream_async, _check_access_key] at hq

/-- Witness for C5: with the placeholder key, `_get` errors without issuing
any request. -/
theorem placeholder_key_fails_before_network_witness :
    _get PLACEHOLDER_KEY [] ⟨200, [], [], none⟩ =
      ⟨[], Except.error OpFailure.placeholderKey⟩ ∧
    _stream PLACEHOLDER_KEY [] ⟨200, [], [], none⟩ [] =
      ⟨[], Except.error OpFailure.placeholderKey⟩ :=
  ⟨((placeholder_key_fails_before_network PLACEHOLDER_KEY [] [] ⟨200, [], [], none⟩ []).1
      rfl).1,
   ((placeholder_key_fails_before_network PLACEHOLDER_KEY [] [] ⟨200, [], [], none⟩ []).1
      rfl).2.2.2.1⟩

/-- C8: the timeseries params list always carries the keys dataset, symbols,
schema, start, end, encoding, compression, stype_in, stype_out in that
order, with limit appended last exactly when it is set; and the sequence
actually sent (after the unset-parameter filter) omits exactly the unset
parameters, preserving that order. -/
theorem timeseries_params_order_and_omission (a : TimeseriesArgs) :
    (_timeseries_params a).map Prod.fst =
      [pystr "dataset", pystr "symbols", pystr "schema", pystr "start",
       pystr "end", pystr "encoding", pystr "compression", pystr "stype_in",
       pystr "stype_out"] ++
      (match a.limit with
       | some _ => [pystr "limit"]
       | none => []) ∧
    sentParams (_timeseries_params a) =
      [(pystr "dataset", pyLower a.dataset)] ++
      optPair (pystr "symbols") a.symbols ++
      [(pystr "schema", a.schema)] ++
      optPair (pystr "start") a.start ++
      optPair (pystr "end") a.stop ++
      [(pystr "encoding", a.encoding), (pystr "compression", a.compression),
       (pystr "stype_in", a.stype_in), (pystr "stype_out", a.stype_out)] ++
      (match a.limit with
       | some l => [(pystr "limit", natToPyStr l)]
       | none => []) := by
  obtain ⟨d, sy, sc, st, en, li, enc, cmp, si, so⟩ := a
  constructor
  · cases li <;>
      simp [_timeseries_params, enum_or_str_lowercase, maybe_symbols_list_to_string,
        maybe_datetime_to_string]
  · cases sy <;> cases st <;> cases en <;> cases li <;>
      simp [_timeseries_params, sentParams, optPair, enum_or_str_lowercase,
        maybe_symbols_list_to_string, maybe_datetime_to_string]

/-- C9: with no path a memory-backed container is returned; with a path to
an existing file the operation fails with a file-exists error (file system
untouched) unless overwrite is authorized, in which case the file is
removed before the disk-backed container is created. -/
theorem create_io_overwrite_semantics (fs : List PyStr)
    (p schema encoding compression : PyStr) (overwrite : Bool) :
    (_create_io fs none schema encoding compression overwrite =
      CreateIoResult.ok fs (BentoIoTarget.memoryIo schema encoding compression)) ∧
    (p ∈ fs → overwrite = false →
      _create_io fs (some p) schema encoding compression overwrite =
        CreateIoResult.fileExistsError fs p) ∧
    (p ∈ fs → overwrite = true →
      _create_io fs (some p) schema encoding compression overwrite =
        CreateIoResult.ok (fs.erase p)
          (BentoIoTarget.diskIo p schema encoding compression)) ∧
    (p ∉ fs →
      _create_io fs (some p) schema encoding compression overwrite =
        CreateIoResult.ok fs (BentoIoTarget.diskIo p schema encoding compression)) := by
  refine ⟨rfl, ?_, ?_, ?_⟩
  · intro hp hov
    simp [_create_io, hp, hov]
  · intro hp hov
    simp [_create_io, hp, hov]
  · intro hp
    simp [_create_io, hp]

/-- Witness for C9 at a one-file file system: creating at the existing path
fails without overwrite and removes the file first with overwrite. -/
theorem create_io_overwrite_semantics_witness :
    _create_io [pystr "a.dbn"] (some (pystr "a.dbn"))
        (pystr "mbo") (pystr "dbn") (pystr "zstd") false =
      CreateIoResult.fileExistsError [pystr "a.dbn"] (pystr "a.dbn") ∧
    _create_io [pystr "a.dbn"] (some (pystr "a.dbn"))
        (pystr "mbo") (pystr "dbn") (pystr "zstd") true =
      CreateIoResult.ok []
        (BentoIoTarget.diskIo (pystr "a.dbn") (pystr "mbo") (pystr "dbn")
          (pystr "zstd")) :=
  ⟨(create_io_overwrite_semantics _ _ _ _ _ _).2.1 (by decide) rfl,
   (create_io_overwrite_semantics _ _ _ _ _ _).2.2.1 (by decide) rfl⟩

/-- Witness for C4: a stream delivering a data chunk, the sentinel, and a
further chunk writes only the first chunk and logs the no-data condition. -/
theorem stream_stops_at_no_data_sentinel_witness :
    (stream_chunk_loop [pystr "ab", _NO_DATA_FOUND, pystr "cd"]).written =
      [pystr "ab"] ∧
    (stream_chunk_loop [pystr "ab", _NO_DATA_FOUND, pystr "cd"]).loggedNoData = true :=
  ⟨by
    rw [(stream_stops_at_no_data_sentinel _).1]
    decide,
   (stream_stops_at_no_data_sentinel _).2.1.mpr (by decide)⟩

/-- Witness for C8: with symbols, start, end and limit unset, the sent
sequence holds exactly the six set parameters, in the fixed order. -/
theorem timeseries_params_order_and_omission_witness :
    sentParams (_timeseries_params
      ⟨pystr "GLBX.MDP3", none, pystr "mbo", none, none, none,
        pystr "dbn", pystr "zstd", pystr "native", pystr "product_id"⟩) =
      [(pystr "dataset", pystr "glbx.mdp3"), (pystr "schema", pystr "mbo"),
       (pystr "encoding", pystr "dbn"), (pystr "compression", pystr "zstd"),
       (pystr "stype_in", pystr "native"), (pystr "stype_out", pystr "product_id")] := by
  rw [(timeseries_params_order_and_omission _).2]
  decide
